import Mathlib

/-!
Verification development for the copilot-usage terminal dashboard.

This file gives a shallow embedding in Lean 4 of the core of the program:
the usage-statistics aggregation (`calculate_stats` in `src/api.rs`), the
cache/TTL layer (`Cache` in `src/cache.rs`), and the UI state machine
(`EventHandler` in `src/ui/events.rs` together with the async-result
application in `run_app`, `src/ui/mod.rs`).

Modelling conventions:
* Rust `f64` quantities are modelled by exact rationals (`ℚ`).  The claims
  under scrutiny evaluate the code at small integer inputs where the two
  agree; a separate small model (`F` below) captures the one claim that is
  specifically about NaN and `partial_cmp`.
* `chrono` instants and durations are modelled as integer numbers of
  seconds; `Duration::minutes(m)` becomes `m * 60`.  The (astronomically
  out-of-range) overflow of the `u64 → i64` cast of the TTL is not modelled.
* The iteration order of Rust's `std::collections::HashMap` is unspecified.
  `calculate_stats` is therefore parametrised by the order `mapOrder` in
  which `model_map.into_iter()` yields its entries; an order is admissible
  exactly when it is a permutation of the grouped entries (`groupGross`),
  which is the insertion-order association list holding the same key/sum
  pairs as the hash map.
-/

/- ===== Stats aggregator (src/api.rs) ===== -/

/-- One usage line from the API.  Mirrors `UsageItem` in `src/models.rs`,
keeping the fields `calculate_stats` reads (`model`, `gross_quantity`,
`net_quantity`); the remaining fields (`product`, `sku`, `unit_type`,
prices, discounts) are never read by the aggregator. -/
structure UsageItemM where
  model : String
  gross_quantity : ℚ
  net_quantity : ℚ
deriving DecidableEq

/-- Mirrors `UsageData` in `src/models.rs`; `time_period` is not read by
`calculate_stats` and is omitted. -/
structure UsageDataM where
  user : String
  usage_items : List UsageItemM
deriving DecidableEq

/-- Mirrors `ModelUsage` in `src/models.rs`. -/
structure ModelUsageM where
  name : String
  used : ℚ
  limit : ℚ
  percentage : ℚ
deriving DecidableEq

/-- Mirrors `UsageStats` in `src/models.rs`; `reset_date` is kept as the
`(year, month)` pair of the first day of the next month. -/
structure UsageStatsM where
  total_used : ℚ
  total_limit : ℚ
  percentage : ℚ
  reset_date : ℤ × ℕ
  models : List ModelUsageM
  estimated_cost : ℚ
  username : String
deriving DecidableEq

def TOTAL_LIMIT : ℚ := 300

def COST_PER_REQUEST : ℚ := 4 / 100

/-- One step of the grouping loop: `*model_map.entry(item.model.clone()).or_insert(0.0) += item.gross_quantity`.
The hash map holds one entry per key; we keep its entries as an
association list in first-insertion order. -/
def addItem : List (String × ℚ) → UsageItemM → List (String × ℚ)
  | [], it => [(it.model, it.gross_quantity)]
  | p :: ps, it =>
    if p.1 = it.model then (p.1, p.2 + it.gross_quantity) :: ps
    else p :: addItem ps it

/-- The grouping loop of `calculate_stats` (lines 157-160 of `src/api.rs`):
the entries of `model_map` after folding all items, listed in
first-insertion order. -/
def groupGross (items : List UsageItemM) : List (String × ℚ) :=
  items.foldl addItem []

/-- The comparator `|a, b| b.used.partial_cmp(&a.used).unwrap()` passed to
the stable `sort_by`: `a` sorts no later than `b` exactly when
`b.used ≤ a.used` (descending by usage, ties keep the pre-sort order). -/
def modelLe (a b : ModelUsageM) : Prop := b.used ≤ a.used

instance : DecidableRel modelLe := fun a b => inferInstanceAs (Decidable (b.used ≤ a.used))

/-- Construction of one `ModelUsage` row from a map entry
(lines 162-170 of `src/api.rs`). -/
def mkModelUsage (p : String × ℚ) : ModelUsageM :=
  ⟨p.1, p.2, TOTAL_LIMIT, p.2 / TOTAL_LIMIT * 100⟩

/-- The `(next_year, next_month)` computation of `calculate_stats`
(lines 147-151 of `src/api.rs`). -/
def next_reset (year : ℤ) (month : ℕ) : ℤ × ℕ :=
  if month = 12 then (year + 1, 1) else (year, month + 1)

/-- Shallow embedding of `calculate_stats` (`src/api.rs`, lines 134-189).
`nowYear`/`nowMonth` stand for `Utc::now()`'s calendar fields and
`mapOrder` for the order in which `model_map.into_iter()` yields the
grouped entries (admissible orders are the permutations of
`groupGross data.usage_items`).  Rust's `sort_by` is a stable sort and is
modelled by Mathlib's stable `List.insertionSort`. -/
def calculate_stats (data : UsageDataM) (nowYear : ℤ) (nowMonth : ℕ)
    (mapOrder : List (String × ℚ)) : UsageStatsM :=
  let total_used : ℚ := (data.usage_items.map (fun item => item.gross_quantity)).sum
  let total_billed : ℚ := (data.usage_items.map (fun item => item.net_quantity)).sum
  let percentage : ℚ := total_used / TOTAL_LIMIT * 100
  let reset_date := next_reset nowYear nowMonth
  let models : List ModelUsageM :=
    List.insertionSort modelLe (mapOrder.map mkModelUsage)
  let estimated_cost : ℚ := if total_billed > 0 then total_billed * COST_PER_REQUEST else 0
  { total_used := total_used
    total_limit := TOTAL_LIMIT
    percentage := percentage
    reset_date := reset_date
    models := models
    estimated_cost := estimated_cost
    username := data.user }

/- ===== Cache store (src/cache.rs) ===== -/

/-- Mirrors `CacheEntry` in `src/models.rs`: the cached snapshot plus the
fetch timestamp (seconds). -/
structure CacheEntryM where
  data : UsageDataM
  timestamp : ℤ
deriving DecidableEq

/-- Mirrors `CacheStatus` in `src/models.rs`. -/
inductive CacheStatusM
  | Fresh (data : UsageDataM)
  | Expired
  | Missing
  | Corrupted
deriving DecidableEq

/-- The state of the cache file on disk, as `Cache::status` can observe it:
absent, present but unreadable (I/O error on `read_to_string`), present
but undeserialisable (`serde_json::from_str` fails), or holding a valid
entry. -/
inductive FileState
  | missing
  | unreadable
  | invalid
  | valid (e : CacheEntryM)
deriving DecidableEq

/-- Mirrors `self.cache_path.exists()`: the path exists in every state but
`missing`. -/
def FileState.fileExists : FileState → Bool
  | .missing => false
  | _ => true

/-- Shallow embedding of `Cache::status` (`src/cache.rs`, lines 49-72).
`ttl_minutes` is the `Cache` field; `now` is `Utc::now()` in seconds;
`age > ttl` uses `Duration::minutes(ttl_minutes) = ttl_minutes * 60`
seconds. -/
def Cache.status (ttl_minutes : ℕ) (fs : FileState) (now : ℤ) : CacheStatusM :=
  match fs with
  | .missing => .Missing
  | .unreadable => .Corrupted
  | .invalid => .Corrupted
  | .valid e =>
    if now - e.timestamp > (ttl_minutes : ℤ) * 60 then .Expired
    else .Fresh e.data

/-- Shallow embedding of `Cache::invalidate` (`src/cache.rs`, lines 41-46):
removes the file when it exists; returns the new file state paired with
`none` for `Ok(())` (an `fs::remove_file` of an existing owned file
succeeds in this single-process model). -/
def Cache.invalidate (fs : FileState) : FileState × Option String :=
  if fs.fileExists then (.missing, none) else (fs, none)

/-- Shallow embedding of `Cache::last_updated` (`src/cache.rs`, lines 74-83):
`Ok(None)` when the file is absent, an error when it cannot be read or
parsed, otherwise `Ok(Some timestamp)`. -/
def Cache.last_updated (fs : FileState) : Except String (Option ℤ) :=
  match fs with
  | .missing => .ok none
  | .unreadable => .error "read failed"
  | .invalid => .error "deserialize failed"
  | .valid e => .ok (some e.timestamp)

/- ===== UI state machine (src/ui/state.rs, src/ui/events.rs, src/ui/mod.rs) ===== -/

/-- Mirrors `Theme` in `src/models.rs`. -/
inductive ThemeM
  | Dark
  | Light
  | Dracula
  | Nord
  | Monokai
  | Gruvbox
deriving DecidableEq

/-- Mirrors `Theme::from_str` in `src/models.rs` (the argument is already
lowercased by the caller sites modelled here). -/
def ThemeM.from_str (s : String) : ThemeM :=
  match s.toLower with
  | "light" => .Light
  | "dracula" => .Dracula
  | "nord" => .Nord
  | "monokai" => .Monokai
  | "gruvbox" => .Gruvbox
  | _ => .Dark

/-- Mirrors `CacheInfo` in `src/ui/state.rs`. -/
structure CacheInfoM where
  last_updated : Option String
  is_fresh : Bool
  ttl_minutes : ℕ
deriving DecidableEq

/-- Mirrors `Command` in `src/ui/state.rs`. -/
structure CommandM where
  id : String
  label : String
  shortcut : Option Char
deriving DecidableEq

/-- Mirrors `AppState` in `src/ui/state.rs`. -/
inductive AppStateM
  | Dashboard
  | CommandMenu
  | ThemeSelector
  | ConfirmRefresh
  | ConfirmReconfigure
  | ShowHelp
  | LoadingRefresh
  | LoadingCache
  | ShowCacheInfo (info : CacheInfoM)
  | ShowError (message : String) (debug_message : String) (show_debug : Bool)
deriving DecidableEq

/-- Mirrors `AppStateManager` in `src/ui/state.rs`. -/
structure AppStateManagerM where
  state : AppStateM
  selected_command : ℕ
  command_scroll_offset : ℕ
  selected_theme : ℕ
  theme_scroll_offset : ℕ
  model_scroll_offset : ℕ
  commands : List CommandM
  themes : List String
  action_taken : Option String
  spinner_state : ℕ
  pending_theme_change : Option ThemeM
deriving DecidableEq

/-- Mirrors `AppStateManager::new` in `src/ui/state.rs`. -/
def AppStateManagerM.new : AppStateManagerM :=
  { state := .Dashboard
    selected_command := 0
    command_scroll_offset := 0
    selected_theme := 0
    theme_scroll_offset := 0
    model_scroll_offset := 0
    commands :=
      [ ⟨"refresh", "Refresh Data", some 'r'⟩
      , ⟨"theme", "Change Theme", some 't'⟩
      , ⟨"reconfigure", "Reconfigure", some 'c'⟩
      , ⟨"cache", "Cache Status", some 's'⟩
      , ⟨"help", "Help", some 'h'⟩
      , ⟨"quit", "Quit", some 'q'⟩ ]
    themes :=
      [ "dark", "dracula", "nord", "monokai", "gruvbox"
      , "catppuccin", "onedark", "tokyonight", "solarized", "kanagawa" ]
    action_taken := none
    spinner_state := 0
    pending_theme_change := none }

/-- Mirrors `AppStateManager::adjust_command_scroll`. -/
def AppStateManagerM.adjust_command_scroll (app : AppStateManagerM) (visible_count : ℕ) :
    AppStateManagerM :=
  if app.commands.length > visible_count then
    if app.selected_command ≥ app.command_scroll_offset + visible_count then
      { app with command_scroll_offset := app.selected_command - visible_count + 1 }
    else if app.selected_command < app.command_scroll_offset then
      { app with command_scroll_offset := app.selected_command }
    else app
  else { app with command_scroll_offset := 0 }

/-- Mirrors `AppStateManager::next_command`. -/
def AppStateManagerM.next_command (app : AppStateManagerM) : AppStateManagerM :=
  ({ app with selected_command := (app.selected_command + 1) % app.commands.length
   } : AppStateManagerM).adjust_command_scroll 5

/-- Mirrors `AppStateManager::previous_command`. -/
def AppStateManagerM.previous_command (app : AppStateManagerM) : AppStateManagerM :=
  (if app.selected_command = 0 then
    { app with selected_command := app.commands.length - 1 }
  else
    { app with selected_command := app.selected_command - 1 }).adjust_command_scroll 5

/-- Mirrors `AppStateManager::adjust_theme_scroll`. -/
def AppStateManagerM.adjust_theme_scroll (app : AppStateManagerM) (visible_count : ℕ) :
    AppStateManagerM :=
  if app.themes.length > visible_count then
    if app.selected_theme ≥ app.theme_scroll_offset + visible_count then
      { app with theme_scroll_offset := app.selected_theme - visible_count + 1 }
    else if app.selected_theme < app.theme_scroll_offset then
      { app with theme_scroll_offset := app.selected_theme }
    else app
  else { app with theme_scroll_offset := 0 }

/-- Mirrors `AppStateManager::next_theme`. -/
def AppStateManagerM.next_theme (app : AppStateManagerM) : AppStateManagerM :=
  ({ app with selected_theme := (app.selected_theme + 1) % app.themes.length
   } : AppStateManagerM).adjust_theme_scroll 5

/-- Mirrors `AppStateManager::previous_theme`. -/
def AppStateManagerM.previous_theme (app : AppStateManagerM) : AppStateManagerM :=
  (if app.selected_theme = 0 then
    { app with selected_theme := app.themes.length - 1 }
  else
    { app with selected_theme := app.selected_theme - 1 }).adjust_theme_scroll 5

/-- Mirrors `AppStateManager::scroll_models_down`. -/
def AppStateManagerM.scroll_models_down (app : AppStateManagerM)
    (total_models visible_count : ℕ) : AppStateManagerM :=
  if app.model_scroll_offset + visible_count < total_models then
    { app with model_scroll_offset := app.model_scroll_offset + 1 }
  else app

/-- Mirrors `AppStateManager::scroll_models_up`. -/
def AppStateManagerM.scroll_models_up (app : AppStateManagerM) : AppStateManagerM :=
  if app.model_scroll_offset > 0 then
    { app with model_scroll_offset := app.model_scroll_offset - 1 }
  else app

/-- Mirrors `AppStateManager::get_selected_command_id`.  Rust indexes with
`self.commands[self.selected_command]`, which panics out of bounds; the
model returns a sentinel command whose empty id falls into the handler's
default arm.  Every state reachable from `new` keeps the index in
bounds. -/
def AppStateManagerM.get_selected_command_id (app : AppStateManagerM) : String :=
  (app.commands.getD app.selected_command ⟨"", "", none⟩).id

/-- The key codes the handlers in `src/ui/events.rs` distinguish; every
other `crossterm` key code falls into `other` (all handlers treat them
via their `_` arm). -/
inductive KeyCodeM
  | char (c : Char)
  | down
  | up
  | esc
  | enter
  | other
deriving DecidableEq

/-- Background operations requested through the `AsyncHandler` by the event
handlers (`spawn_refresh` / `spawn_cache_info`). -/
inductive EffectM
  | spawnRefresh
  | spawnCacheInfo
deriving DecidableEq

/-- Result of one handler call: the updated manager, the returned `bool`
(`true` = exit the UI loop), and the spawned background operations. -/
structure HandlerOut where
  app : AppStateManagerM
  exit : Bool
  effects : List EffectM
deriving DecidableEq

/-- Mirrors `EventHandler::handle_dashboard` (`src/ui/events.rs`, lines
45-72). -/
def handle_dashboard (app : AppStateManagerM) (code : KeyCodeM) (total_models : ℕ) :
    HandlerOut :=
  match code with
  | .char '/' => ⟨{ app with state := .CommandMenu }, false, []⟩
  | .char ':' => ⟨{ app with state := .CommandMenu }, false, []⟩
  | .char 'q' => ⟨{ app with action_taken := some "quit" }, true, []⟩
  | .char 'r' => ⟨{ app with state := .ConfirmRefresh }, false, []⟩
  | .char 't' => ⟨{ app with state := .ThemeSelector }, false, []⟩
  | .char 'h' => ⟨{ app with state := .ShowHelp }, false, []⟩
  | .down => ⟨app.scroll_models_down total_models 8, false, []⟩
  | .char 'j' => ⟨app.scroll_models_down total_models 8, false, []⟩
  | .up => ⟨app.scroll_models_up, false, []⟩
  | .char 'k' => ⟨app.scroll_models_up, false, []⟩
  | _ => ⟨app, false, []⟩

/-- Mirrors `EventHandler::execute_selected_command` (`src/ui/events.rs`,
lines 173-190). -/
def execute_selected_command (app : AppStateManagerM) : HandlerOut :=
  match app.get_selected_command_id with
  | "refresh" => ⟨{ app with state := .ConfirmRefresh }, false, []⟩
  | "theme" => ⟨{ app with state := .ThemeSelector }, false, []⟩
  | "reconfigure" => ⟨{ app with state := .ConfirmReconfigure }, false, []⟩
  | "cache" => ⟨{ app with state := .LoadingCache }, false, [.spawnCacheInfo]⟩
  | "help" => ⟨{ app with state := .ShowHelp }, false, []⟩
  | "quit" => ⟨{ app with action_taken := some "quit" }, true, []⟩
  | _ => ⟨app, false, []⟩

/-- Mirrors `EventHandler::handle_command_menu` (`src/ui/events.rs`, lines
74-106).  `c.toLower` models `c.to_ascii_lowercase()` (the shortcuts
compared against are ASCII letters, where the two agree). -/
def handle_command_menu (app : AppStateManagerM) (code : KeyCodeM) : HandlerOut :=
  match code with
  | .esc => ⟨{ app with state := .Dashboard }, false, []⟩
  | .down => ⟨app.next_command, false, []⟩
  | .up => ⟨app.previous_command, false, []⟩
  | .enter => execute_selected_command app
  | .char c =>
    if c = 'j' then ⟨app.next_command, false, []⟩
    else if c = 'k' then ⟨app.previous_command, false, []⟩
    else
      match app.commands.findIdx? (fun cmd => cmd.shortcut = some c.toLower) with
      | some pos => execute_selected_command { app with selected_command := pos }
      | none => ⟨app, false, []⟩
  | _ => ⟨app, false, []⟩

/-- Mirrors `EventHandler::handle_theme_selector` (`src/ui/events.rs`,
lines 108-129).  Rust indexes `app.themes[app.selected_theme]` (panics
out of bounds); the model uses a sentinel string mapping to the default
theme. -/
def handle_theme_selector (app : AppStateManagerM) (code : KeyCodeM) : HandlerOut :=
  match code with
  | .esc => ⟨{ app with state := .Dashboard }, false, []⟩
  | .down => ⟨app.next_theme, false, []⟩
  | .up => ⟨app.previous_theme, false, []⟩
  | .enter =>
    let theme_name := app.themes.getD app.selected_theme ""
    ⟨{ app with pending_theme_change := some (ThemeM.from_str theme_name)
              , state := .Dashboard }, false, []⟩
  | .char c =>
    if c = 'j' then ⟨app.next_theme, false, []⟩
    else if c = 'k' then ⟨app.previous_theme, false, []⟩
    else ⟨app, false, []⟩
  | _ => ⟨app, false, []⟩

/-- Mirrors `EventHandler::handle_confirm_refresh` (`src/ui/events.rs`,
lines 131-147). -/
def handle_confirm_refresh (app : AppStateManagerM) (code : KeyCodeM) : HandlerOut :=
  match code with
  | .char 'y' => ⟨{ app with state := .LoadingRefresh }, false, [.spawnRefresh]⟩
  | .enter => ⟨{ app with state := .LoadingRefresh }, false, [.spawnRefresh]⟩
  | .char 'n' => ⟨{ app with state := .Dashboard }, false, []⟩
  | .esc => ⟨{ app with state := .Dashboard }, false, []⟩
  | _ => ⟨app, false, []⟩

/-- Mirrors `EventHandler::handle_confirm_reconfigure` (`src/ui/events.rs`,
lines 149-161). -/
def handle_confirm_reconfigure (app : AppStateManagerM) (code : KeyCodeM) : HandlerOut :=
  match code with
  | .char 'y' => ⟨{ app with action_taken := some "reconfigure" }, true, []⟩
  | .enter => ⟨{ app with action_taken := some "reconfigure" }, true, []⟩
  | .char 'n' => ⟨{ app with state := .Dashboard }, false, []⟩
  | .esc => ⟨{ app with state := .Dashboard }, false, []⟩
  | _ => ⟨app, false, []⟩

/-- Mirrors `EventHandler::handle_help` (`src/ui/events.rs`, lines
163-171): only `Esc` and `'q'` leave the help screen. -/
def handle_help (app : AppStateManagerM) (code : KeyCodeM) : HandlerOut :=
  match code with
  | .esc => ⟨{ app with state := .Dashboard }, false, []⟩
  | .char 'q' => ⟨{ app with state := .Dashboard }, false, []⟩
  | _ => ⟨app, false, []⟩

/-- Mirrors `EventHandler::handle_loading` (`src/ui/events.rs`, lines
192-197). -/
def handle_loading (app : AppStateManagerM) (code : KeyCodeM) : HandlerOut :=
  if code = .esc then ⟨{ app with state := .Dashboard }, false, []⟩
  else ⟨app, false, []⟩

/-- Mirrors `EventHandler::handle_cache_info` (`src/ui/events.rs`, lines
199-202): every key returns to the dashboard. -/
def handle_cache_info (app : AppStateManagerM) (_code : KeyCodeM) : HandlerOut :=
  ⟨{ app with state := .Dashboard }, false, []⟩

/-- Mirrors `EventHandler::handle_error` (`src/ui/events.rs`, lines
204-226): `'d'` flips `show_debug` in place (the `if let` always matches
because this handler is only dispatched from `ShowError`); any other key
returns to the dashboard. -/
def handle_error (app : AppStateManagerM) (code : KeyCodeM) : HandlerOut :=
  match code with
  | .char 'd' =>
    match app.state with
    | .ShowError message debug_message show_debug =>
      ⟨{ app with state := .ShowError message debug_message (!show_debug) }, false, []⟩
    | _ => ⟨app, false, []⟩
  | _ => ⟨{ app with state := .Dashboard }, false, []⟩

/-- Mirrors `EventHandler::handle_key_press` (`src/ui/events.rs`, lines
26-43): dispatch on the current state. -/
def handle_key_press (app : AppStateManagerM) (code : KeyCodeM) (total_models : ℕ) :
    HandlerOut :=
  match app.state with
  | .Dashboard => handle_dashboard app code total_models
  | .CommandMenu => handle_command_menu app code
  | .ThemeSelector => handle_theme_selector app code
  | .ConfirmRefresh => handle_confirm_refresh app code
  | .ConfirmReconfigure => handle_confirm_reconfigure app code
  | .ShowHelp => handle_help app code
  | .LoadingRefresh => handle_loading app code
  | .LoadingCache => handle_loading app code
  | .ShowCacheInfo _ => handle_cache_info app code
  | .ShowError _ _ _ => handle_error app code

/-- Mirrors `anyhow::Error` as the pair of its `Display` and `Debug`
renderings, which are all `run_app` extracts from it. -/
structure ErrorM where
  display : String
  debug : String
deriving DecidableEq

/-- Mirrors `format_error_for_user` (`src/ui/mod.rs`, lines 42-45). -/
def format_error_for_user (e : ErrorM) : String := e.display

/-- Mirrors `format_error_debug` (`src/ui/mod.rs`, lines 48-51). -/
def format_error_debug (e : ErrorM) : String := e.debug

/-- Mirrors `AsyncResult` in `src/ui/async_handler.rs`. -/
inductive AsyncResultM
  | RefreshComplete (r : Except ErrorM UsageStatsM)
  | CacheInfoReady (info : CacheInfoM)
  | ThemeSaved (r : Except ErrorM Unit)

/-- Mirrors the application of one drained `AsyncResult` in `run_app`
(`src/ui/mod.rs`, lines 147-173): returns the updated manager and the
(possibly replaced) current stats. -/
def apply_async_result (app : AppStateManagerM) (stats : UsageStatsM)
    (r : AsyncResultM) : AppStateManagerM × UsageStatsM :=
  match r with
  | .RefreshComplete (.ok new_stats) =>
    ({ app with state := .Dashboard }, new_stats)
  | .RefreshComplete (.error e) =>
    ({ app with state := .ShowError (format_error_for_user e) (format_error_debug e) false },
     stats)
  | .CacheInfoReady info => ({ app with state := .ShowCacheInfo info }, stats)
  | .ThemeSaved (.ok _) => (app, stats)
  | .ThemeSaved (.error _) => (app, stats)

/- ===== f64 fragment with NaN (for the model-sort comparator claim) ===== -/

/-- A fragment of `f64` sufficient for the NaN behaviour of the model sort
in `calculate_stats`: a finite value (exact rational) or NaN. -/
inductive F
  | num (q : ℚ)
  | nan
deriving DecidableEq

/-- Mirrors `f64` addition on the fragment: any operation touching NaN
yields NaN. -/
def F.add : F → F → F
  | .num a, .num b => .num (a + b)
  | _, _ => .nan

/-- Mirrors `f64::partial_cmp`: `None` exactly when an operand is NaN. -/
def F.cmpOpt : F → F → Option Ordering
  | .num a, .num b => some (compare a b)
  | _, _ => none

/-- The grouping loop of `calculate_stats` over the `F` fragment (same
structure as `addItem`/`groupGross`, with `f64` addition). -/
def addItemF : List (String × F) → String × F → List (String × F)
  | [], it => [it]
  | p :: ps, it =>
    if p.1 = it.1 then (p.1, p.2.add it.2) :: ps
    else p :: addItemF ps it

/-- The `model_map` contents over the `F` fragment, in first-insertion
order (items are `(model, gross_quantity)` pairs). -/
def groupGrossF (items : List (String × F)) : List (String × F) :=
  items.foldl addItemF []

/-- One insertion step of the stable descending sort with the comparator
`|a, b| b.1.partial_cmp(&a.1).unwrap()`: `none` models the `unwrap`
panic on an incomparable (NaN) pair. -/
def insertDescF (x : String × F) : List (String × F) → Option (List (String × F))
  | [] => some [x]
  | y :: ys =>
    match F.cmpOpt y.2 x.2 with
    | none => none
    | some Ordering.gt =>
      match insertDescF x ys with
      | none => none
      | some zs => some (y :: zs)
    | some _ => some (x :: y :: ys)

/-- The `models.sort_by(|a, b| b.used.partial_cmp(&a.used).unwrap())` call
over the `F` fragment: a stable descending sort that `panics` (returns
`none`) as soon as the comparator meets a NaN. -/
def sortDescF : List (String × F) → Option (List (String × F))
  | [] => some []
  | x :: xs =>
    match sortDescF xs with
    | none => none
    | some ys => insertDescF x ys

/- ===== Claim theorems ===== -/

/-- C2: for every persisted `CacheEntry` and TTL, `status()` returns
`Fresh` exactly when `now - fetched_at ≤ ttl`; with
`fetched_at = now - ttl - 1s` it returns `Expired`, and with
`fetched_at = now - ttl + 1s` it returns `Fresh`. -/
theorem cache_status_ttl_boundary (ttl : ℕ) (e : CacheEntryM) (now : ℤ) (d : UsageDataM) :
    (Cache.status ttl (.valid e) now = .Fresh e.data ↔ now - e.timestamp ≤ (ttl : ℤ) * 60)
    ∧ Cache.status ttl (.valid ⟨d, now - (ttl : ℤ) * 60 - 1⟩) now = .Expired
    ∧ Cache.status ttl (.valid ⟨d, now - (ttl : ℤ) * 60 + 1⟩) now = .Fresh d := by
  simp only [Cache.status]
  refine ⟨⟨fun h => ?_, fun h => ?_⟩, ?_, ?_⟩
  · by_contra hc
    rw [if_pos (by omega)] at h
    exact CacheStatusM.noConfusion h
  · rw [if_neg (by omega)]
  · rw [if_pos (by omega)]
  · rw [if_neg (by omega)]

/-- Witness for `cache_status_ttl_boundary` at TTL 5 minutes and `now = 0`. -/
theorem cache_status_ttl_boundary_witness :
    Cache.status 5 (.valid ⟨⟨"u", []⟩, 0 - (5 : ℤ) * 60 - 1⟩) 0 = .Expired
    ∧ Cache.status 5 (.valid ⟨⟨"u", []⟩, 0 - (5 : ℤ) * 60 + 1⟩) 0 = .Fresh ⟨"u", []⟩ :=
  ⟨(cache_status_ttl_boundary 5 ⟨⟨"u", []⟩, 0⟩ 0 ⟨"u", []⟩).2.1,
   (cache_status_ttl_boundary 5 ⟨⟨"u", []⟩, 0⟩ 0 ⟨"u", []⟩).2.2⟩

/-- C3: `status()` is total and collapses every failure: a missing file
yields `Missing`, a read error or a deserialisation error yields
`Corrupted`, and a valid entry yields `Expired` or `Fresh` — no input
escapes these four outcomes. -/
theorem cache_status_total (ttl : ℕ) (now : ℤ) (e : CacheEntryM) :
    Cache.status ttl .missing now = .Missing
    ∧ Cache.status ttl .unreadable now = .Corrupted
    ∧ Cache.status ttl .invalid now = .Corrupted
    ∧ (Cache.status ttl (.valid e) now = .Expired
        ∨ Cache.status ttl (.valid e) now = .Fresh e.data) := by
  refine ⟨rfl, rfl, rfl, ?_⟩
  simp only [Cache.status]
  split_ifs <;> simp

/-- C8: `invalidate()` never errors and always leaves the persisted entry
absent, so a second call (necessarily on a missing file) also succeeds. -/
theorem cache_invalidate_idempotent (fs : FileState) :
    Cache.invalidate fs = (.missing, none)
    ∧ Cache.invalidate (Cache.invalidate fs).1 = (.missing, none) := by
  cases fs <;> simp [Cache.invalidate, FileState.fileExists]

/-- C4: from any manager in the `Dashboard` state — whatever its prior
history left in the other fields — the refresh key `'r'` transitions to
`ConfirmRefresh`; and applying `RefreshComplete(Err)` from any state
yields `ShowError` with `show_debug = false`. -/
theorem refresh_transitions_deterministic (app : AppStateManagerM) (n : ℕ)
    (h : app.state = .Dashboard) :
    (handle_key_press app (.char 'r') n).app.state = .ConfirmRefresh
    ∧ ∀ (app2 : AppStateManagerM) (stats : UsageStatsM) (e : ErrorM),
        (apply_async_result app2 stats (.RefreshComplete (.error e))).1.state =
          .ShowError (format_error_for_user e) (format_error_debug e) false := by
  constructor
  · obtain ⟨st, a1, a2, a3, a4, a5, a6, a7, a8, a9, a10⟩ := app
    cases h
    rfl
  · intro app2 stats e
    rfl

/-- Witness for `refresh_transitions_deterministic` at the initial
manager. -/
theorem refresh_transitions_deterministic_witness :
    (handle_key_press AppStateManagerM.new (.char 'r') 0).app.state = .ConfirmRefresh
    ∧ (apply_async_result AppStateManagerM.new
        ⟨0, 300, 0, (2026, 11), [], 0, "u"⟩
        (.RefreshComplete (.error ⟨"boom", "boom (debug)"⟩))).1.state =
      .ShowError "boom" "boom (debug)" false :=
  ⟨(refresh_transitions_deterministic AppStateManagerM.new 0 rfl).1,
   (refresh_transitions_deterministic AppStateManagerM.new 0 rfl).2
     AppStateManagerM.new ⟨0, 300, 0, (2026, 11), [], 0, "u"⟩ ⟨"boom", "boom (debug)"⟩⟩

/-- C9: in the `ShowError` state the toggle-debug key `'d'` flips
`show_debug` and keeps both `message` and `debug_message` unchanged. -/
theorem error_toggle_preserves_messages (app : AppStateManagerM) (msg dbg : String)
    (sd : Bool) (n : ℕ) (h : app.state = .ShowError msg dbg sd) :
    (handle_key_press app (.char 'd') n).app.state = .ShowError msg dbg (!sd) := by
  obtain ⟨st, a1, a2, a3, a4, a5, a6, a7, a8, a9, a10⟩ := app
  cases h
  rfl

/-- Witness for `error_toggle_preserves_messages`: toggling on a concrete
error state reveals the debug view without losing either message. -/
theorem error_toggle_preserves_messages_witness :
    (handle_key_press
      { AppStateManagerM.new with state := .ShowError "boom" "boom (debug)" false }
      (.char 'd') 0).app.state = .ShowError "boom" "boom (debug)" true :=
  error_toggle_preserves_messages
    { AppStateManagerM.new with state := .ShowError "boom" "boom (debug)" false }
    "boom" "boom (debug)" false 0 rfl

/-- In the help screen, a character other than `'q'` hits the default arm
of `handle_help` and leaves the manager unchanged. -/
theorem handle_help_other_char (app : AppStateManagerM) (c : Char) (hc : c ≠ 'q') :
    handle_help app (.char c) = ⟨app, false, []⟩ := by
  unfold handle_help
  split
  · rename_i heq
    exact absurd heq (by simp)
  · rename_i heq
    injection heq with h2
    exact absurd h2 hc
  · rfl

/-- C5 (amended): from `ShowCacheInfo` every key returns to the dashboard;
from `ShowHelp` only `Esc` and `'q'` do, and every other key leaves the
state at `ShowHelp`. -/
theorem help_and_cache_info_dismissal (app : AppStateManagerM) (code : KeyCodeM)
    (info : CacheInfoM) (n : ℕ) (h : app.state = .ShowCacheInfo info) :
    (handle_key_press app code n).app.state = .Dashboard
    ∧ ∀ app2 : AppStateManagerM, app2.state = .ShowHelp →
        ((code = .esc ∨ code = .char 'q') →
          (handle_key_press app2 code n).app.state = .Dashboard)
        ∧ ((∀ c : Char, code ≠ .char c) → code ≠ .esc →
          (handle_key_press app2 code n).app.state = .ShowHelp)
        ∧ (∀ c : Char, code = .char c → c ≠ 'q' →
          (handle_key_press app2 code n).app.state = .ShowHelp) := by
  constructor
  · obtain ⟨st, a1, a2, a3, a4, a5, a6, a7, a8, a9, a10⟩ := app
    cases h
    rfl
  · intro app2 h2
    obtain ⟨st2, b1, b2, b3, b4, b5, b6, b7, b8, b9, b10⟩ := app2
    cases h2
    refine ⟨?_, ?_, ?_⟩
    · rintro (rfl | rfl) <;> rfl
    · intro hnc hne
      cases code with
      | char c => exact absurd rfl (hnc c)
      | esc => exact absurd rfl hne
      | down => rfl
      | up => rfl
      | enter => rfl
      | other => rfl
    · rintro c rfl hq
      show (handle_help _ (.char c)).app.state = .ShowHelp
      rw [handle_help_other_char _ c hq]

/-- Counterexample to C5 as stated: in the `ShowHelp` state the key `'x'`
does not transition to `Dashboard` — the state stays `ShowHelp`. -/
theorem help_any_key_counterexample :
    (handle_key_press { AppStateManagerM.new with state := .ShowHelp } (.char 'x') 0).app.state
      = .ShowHelp
    ∧ AppStateM.ShowHelp ≠ AppStateM.Dashboard := by
  exact ⟨rfl, by decide⟩

/-- Witness for `help_and_cache_info_dismissal`: a concrete
`ShowCacheInfo` manager returns to the dashboard on `'x'`, and a concrete
`ShowHelp` manager returns on `Esc`. -/
theorem help_and_cache_info_dismissal_witness :
    (handle_key_press
        { AppStateManagerM.new with state := .ShowCacheInfo ⟨none, false, 5⟩ }
        (.char 'x') 0).app.state = .Dashboard
    ∧ (handle_key_press { AppStateManagerM.new with state := .ShowHelp } .esc 0).app.state
        = .Dashboard :=
  ⟨(help_and_cache_info_dismissal
      { AppStateManagerM.new with state := .ShowCacheInfo ⟨none, false, 5⟩ }
      (.char 'x') ⟨none, false, 5⟩ 0 rfl).1,
   (((help_and_cache_info_dismissal
      { AppStateManagerM.new with state := .ShowCacheInfo ⟨none, false, 5⟩ }
      .esc ⟨none, false, 5⟩ 0 rfl).2
      { AppStateManagerM.new with state := .ShowHelp } rfl).1 (Or.inl rfl))⟩

/- ===== Aggregation lemmas ===== -/

/-- Adding one item to the map raises the sum of the stored quantities by
exactly that item's gross quantity. -/
theorem sum_snd_addItem (ps : List (String × ℚ)) (it : UsageItemM) :
    ((addItem ps it).map Prod.snd).sum = (ps.map Prod.snd).sum + it.gross_quantity := by
  induction ps with
  | nil => simp [addItem]
  | cons p ps ih =>
    by_cases h : p.1 = it.model
    · simp only [addItem, if_pos h, List.map_cons, List.sum_cons]
      ring
    · simp only [addItem, if_neg h, List.map_cons, List.sum_cons, ih]
      ring

/-- The grouping fold preserves the total gross quantity. -/
theorem sum_snd_foldl (items : List UsageItemM) :
    ∀ acc : List (String × ℚ),
      (((items.foldl addItem acc).map Prod.snd).sum : ℚ)
        = (acc.map Prod.snd).sum + (items.map (fun it => it.gross_quantity)).sum := by
  induction items with
  | nil => intro acc; simp
  | cons it items ih =>
    intro acc
    simp only [List.foldl_cons, List.map_cons, List.sum_cons]
    rw [ih (addItem acc it), sum_snd_addItem]
    ring

/-- The grouped per-model sums add up to the total gross quantity. -/
theorem sum_snd_groupGross (items : List UsageItemM) :
    ((groupGross items).map Prod.snd).sum = (items.map (fun it => it.gross_quantity)).sum := by
  simpa using sum_snd_foldl items []

/-- A list permuting a two-element list is one of its two arrangements. -/
theorem perm_pair_cases {α : Type} {x y : α} {l : List α} (h : l.Perm [x, y]) :
    l = [x, y] ∨ l = [y, x] := by
  have hlen : l.length = 2 := by simpa using h.length_eq
  match l, hlen, h with
  | [a, b], _, h =>
    have ha : a ∈ [x, y] := h.subset (by simp)
    rcases (by simpa using ha : a = x ∨ a = y) with rfl | rfl
    · left
      have hb : b = y := by simpa [List.perm_singleton] using h.cons_inv
      rw [hb]
    · right
      have hswap : [a, b].Perm [a, x] := h.trans (List.Perm.swap a x [])
      have hb : b = x := by simpa [List.perm_singleton] using hswap.cons_inv
      rw [hb]

/-- Field equations of `calculate_stats` (record projections). -/
theorem calculate_stats_models (data : UsageDataM) (y : ℤ) (m : ℕ)
    (ord : List (String × ℚ)) :
    (calculate_stats data y m ord).models
      = List.insertionSort modelLe (ord.map mkModelUsage) := rfl

/-- The total gross quantity field of `calculate_stats`. -/
theorem calculate_stats_total_used (data : UsageDataM) (y : ℤ) (m : ℕ)
    (ord : List (String × ℚ)) :
    (calculate_stats data y m ord).total_used
      = (data.usage_items.map (fun it => it.gross_quantity)).sum := rfl

/-- The estimated cost field of `calculate_stats`. -/
theorem calculate_stats_estimated_cost (data : UsageDataM) (y : ℤ) (m : ℕ)
    (ord : List (String × ℚ)) :
    (calculate_stats data y m ord).estimated_cost
      = (if (data.usage_items.map (fun it => it.net_quantity)).sum > 0
         then (data.usage_items.map (fun it => it.net_quantity)).sum * COST_PER_REQUEST
         else 0) := rfl

instance : IsTotal ModelUsageM modelLe := ⟨fun a b => le_total b.used a.used⟩

instance : IsTrans ModelUsageM modelLe := ⟨fun _ _ _ hab hbc => le_trans hbc hab⟩

/-- The records of the aggregation-correctness scenario:
`[(A,100,0), (B,50,0), (A,25,0)]`. -/
def c1Items : List UsageItemM := [⟨"A", 100, 0⟩, ⟨"B", 50, 0⟩, ⟨"A", 25, 0⟩]

/-- The snapshot holding `c1Items`. -/
def c1Data : UsageDataM := ⟨"testuser", c1Items⟩

/-- C1 (amended): for every snapshot and every admissible hash-map
iteration order, `calculate_stats` produces the grouped per-model sums
(as a multiset), the per-model sums add up to `total_used`, and the list
is sorted descending by usage; ties keep the hash-map iteration order
(which is unspecified), not necessarily first-encountered input order.
For the scenario records `[(A,100,0), (B,50,0), (A,25,0)]` every
admissible order yields `total_used = 175` and models
`[("A",125), ("B",50)]`. -/
theorem aggregate_grouping_sorted (data : UsageDataM) (y : ℤ) (m : ℕ)
    (ord : List (String × ℚ)) (h : ord.Perm (groupGross data.usage_items)) :
    (calculate_stats data y m ord).total_used
        = (data.usage_items.map (fun it => it.gross_quantity)).sum
    ∧ ((calculate_stats data y m ord).models.map (fun mu => (mu.name, mu.used))).Perm
        (groupGross data.usage_items)
    ∧ ((calculate_stats data y m ord).models.map (fun mu => mu.used)).sum
        = (calculate_stats data y m ord).total_used
    ∧ (calculate_stats data y m ord).models.Pairwise modelLe
    ∧ ∀ ord2 : List (String × ℚ), ord2.Perm (groupGross c1Items) →
        (calculate_stats c1Data y m ord2).total_used = 175
        ∧ (calculate_stats c1Data y m ord2).models.map (fun mu => (mu.name, mu.used))
            = [("A", 125), ("B", 50)] := by
  refine ⟨rfl, ?_, ?_, ?_, ?_⟩
  · rw [calculate_stats_models]
    have h1 := (List.perm_insertionSort modelLe (ord.map mkModelUsage)).map
      (fun mu : ModelUsageM => (mu.name, mu.used))
    rw [List.map_map] at h1
    have h2 : ((fun mu : ModelUsageM => (mu.name, mu.used)) ∘ mkModelUsage) = id :=
      funext fun p => rfl
    rw [h2, List.map_id] at h1
    exact h1.trans h
  · rw [calculate_stats_models, calculate_stats_total_used]
    have h1 := ((List.perm_insertionSort modelLe (ord.map mkModelUsage)).map
      (fun mu : ModelUsageM => mu.used)).sum_eq
    rw [List.map_map] at h1
    have h2 : ((fun mu : ModelUsageM => mu.used) ∘ mkModelUsage) = Prod.snd :=
      funext fun p => rfl
    rw [h2] at h1
    rw [h1, (h.map Prod.snd).sum_eq, sum_snd_groupGross]
  · rw [calculate_stats_models]
    exact List.sorted_insertionSort modelLe _
  · intro ord2 h2
    have hg : groupGross c1Items = [("A", (125 : ℚ)), ("B", 50)] := by
      simp [groupGross, c1Items, addItem]
      norm_num
    rw [hg] at h2
    rcases perm_pair_cases h2 with rfl | rfl <;>
      refine ⟨?_, ?_⟩ <;>
      first
      | (rw [calculate_stats_total_used]; norm_num [c1Data, c1Items])
      | (rw [calculate_stats_models];
         norm_num [List.insertionSort, List.orderedInsert, modelLe, mkModelUsage])

/-- Records producing a usage tie between two models. -/
def c1TieItems : List UsageItemM := [⟨"A", 50, 0⟩, ⟨"B", 50, 0⟩]

/-- Counterexample to C1's tie-break clause: the hash map may yield the
tied groups as `[("B",50), ("A",50)]` (a permutation of the grouped
entries), and the stable sort then returns the models as `["B", "A"]`,
not in first-encountered input order `["A", "B"]`. -/
theorem aggregate_tie_order_counterexample :
    [("B", (50 : ℚ)), ("A", 50)].Perm (groupGross c1TieItems)
    ∧ (calculate_stats ⟨"testuser", c1TieItems⟩ 2026 10 [("B", 50), ("A", 50)]).models.map
        (fun mu => mu.name) = ["B", "A"]
    ∧ (groupGross c1TieItems).map Prod.fst = ["A", "B"]
    ∧ (["B", "A"] : List String) ≠ ["A", "B"] := by
  have hg : groupGross c1TieItems = [("A", (50 : ℚ)), ("B", 50)] := by
    simp [groupGross, c1TieItems, addItem]
  refine ⟨?_, ?_, ?_, by simp⟩
  · rw [hg]
    exact List.Perm.swap ("A", (50 : ℚ)) ("B", 50) []
  · rw [calculate_stats_models]
    norm_num [List.insertionSort, List.orderedInsert, modelLe, mkModelUsage]
  · rw [hg]
    rfl

/-- Witness for `aggregate_grouping_sorted` at the scenario records and
the first-insertion iteration order. -/
theorem aggregate_grouping_sorted_witness :
    (calculate_stats c1Data 2026 10 (groupGross c1Items)).total_used = 175
    ∧ (calculate_stats c1Data 2026 10 (groupGross c1Items)).models.map
        (fun mu => (mu.name, mu.used)) = [("A", (125 : ℚ)), ("B", 50)] :=
  (aggregate_grouping_sorted c1Data 2026 10 (groupGross c1Items)
    (List.Perm.refl _)).2.2.2.2 (groupGross c1Items) (List.Perm.refl _)

/-- C7: an empty record list yields zero totals, zero percentage, an empty
model list and zero cost; the fixed limit 300 never divides by zero. -/
theorem aggregate_empty_snapshot (u : String) (y : ℤ) (m : ℕ)
    (ord : List (String × ℚ)) (h : ord.Perm (groupGross ([] : List UsageItemM))) :
    (calculate_stats ⟨u, []⟩ y m ord).total_used = 0
    ∧ (calculate_stats ⟨u, []⟩ y m ord).percentage = 0
    ∧ (calculate_stats ⟨u, []⟩ y m ord).models = []
    ∧ (calculate_stats ⟨u, []⟩ y m ord).estimated_cost = 0 := by
  have hord : ord = [] := h.eq_nil
  subst hord
  refine ⟨rfl, ?_, rfl, ?_⟩ <;> norm_num [calculate_stats, TOTAL_LIMIT]

/-- Witness for `aggregate_empty_snapshot`. -/
theorem aggregate_empty_snapshot_witness :
    (calculate_stats ⟨"testuser", []⟩ 2026 10 []).total_used = 0
    ∧ (calculate_stats ⟨"testuser", []⟩ 2026 10 []).percentage = 0
    ∧ (calculate_stats ⟨"testuser", []⟩ 2026 10 []).models = []
    ∧ (calculate_stats ⟨"testuser", []⟩ 2026 10 []).estimated_cost = 0 :=
  aggregate_empty_snapshot "testuser" 2026 10 [] (List.Perm.refl _)

/-- C6 (amended): `estimated_cost` equals the billed (net) sum times the
overage rate whenever that sum is nonnegative (the code returns `0`
rather than a negative cost for a negative billed sum). -/
theorem estimated_cost_from_billed (data : UsageDataM) (y : ℤ) (m : ℕ)
    (ord : List (String × ℚ))
    (h : 0 ≤ (data.usage_items.map (fun it => it.net_quantity)).sum) :
    (calculate_stats data y m ord).estimated_cost
      = (data.usage_items.map (fun it => it.net_quantity)).sum * COST_PER_REQUEST := by
  rw [calculate_stats_estimated_cost]
  split_ifs with hpos
  · rfl
  · have h0 : (data.usage_items.map (fun it => it.net_quantity)).sum = 0 :=
      le_antisymm (not_lt.mp hpos) h
    rw [h0, zero_mul]

/-- A snapshot whose billed (net) sum is negative. -/
def c6Data : UsageDataM := ⟨"testuser", [⟨"gpt-4", 0, -25⟩]⟩

/-- Counterexample to C6 as stated: for a snapshot with billed sum `-25`
the code returns `estimated_cost = 0`, not `-25 * 0.04 = -1`, so the cost
is not always the billed sum times the rate. -/
theorem estimated_cost_counterexample :
    (calculate_stats c6Data 2026 10 (groupGross c6Data.usage_items)).estimated_cost = 0
    ∧ (c6Data.usage_items.map (fun it => it.net_quantity)).sum * COST_PER_REQUEST = -1
    ∧ (0 : ℚ) ≠ -1 := by
  refine ⟨?_, ?_, by norm_num⟩
  · rw [calculate_stats_estimated_cost]
    norm_num [c6Data]
  · norm_num [c6Data, COST_PER_REQUEST]

/-- Witness for `estimated_cost_from_billed`: billed sum 50 gives cost
2.0, and billed sum 0 gives cost 0.0 despite gross usage 350. -/
theorem estimated_cost_from_billed_witness :
    (calculate_stats ⟨"testuser", [⟨"gpt-4", 350, 50⟩]⟩ 2026 10
        (groupGross [⟨"gpt-4", 350, 50⟩])).estimated_cost = 2
    ∧ (calculate_stats ⟨"testuser", [⟨"gpt-4", 350, 0⟩]⟩ 2026 10
        (groupGross [⟨"gpt-4", 350, 0⟩])).estimated_cost = 0 := by
  constructor
  · rw [estimated_cost_from_billed ⟨"testuser", [⟨"gpt-4", 350, 50⟩]⟩ 2026 10
      (groupGross [⟨"gpt-4", 350, 50⟩]) (by norm_num)]
    norm_num [COST_PER_REQUEST]
  · rw [estimated_cost_from_billed ⟨"testuser", [⟨"gpt-4", 350, 0⟩]⟩ 2026 10
      (groupGross [⟨"gpt-4", 350, 0⟩]) (by norm_num)]
    norm_num

/-- Inserting a non-NaN entry into a list of non-NaN entries never hits
the `unwrap`, and the result again holds only non-NaN entries. -/
theorem insertDescF_total (x : String × F) (l : List (String × F)) (hx : x.2 ≠ F.nan)
    (hl : ∀ p ∈ l, p.2 ≠ F.nan) :
    ∃ r, insertDescF x l = some r ∧ ∀ p ∈ r, p.2 ≠ F.nan := by
  induction l with
  | nil => exact ⟨[x], rfl, by simpa using hx⟩
  | cons y ys ih =>
    have hy : y.2 ≠ F.nan := hl y (by simp)
    have hys : ∀ p ∈ ys, p.2 ≠ F.nan := fun p hp => hl p (by simp [hp])
    obtain ⟨qx, hqx⟩ : ∃ q, x.2 = F.num q := by
      cases hx2 : x.2 with
      | num q => exact ⟨q, rfl⟩
      | nan => exact absurd hx2 hx
    obtain ⟨qy, hqy⟩ : ∃ q, y.2 = F.num q := by
      cases hy2 : y.2 with
      | num q => exact ⟨q, rfl⟩
      | nan => exact absurd hy2 hy
    obtain ⟨r, hr, hrn⟩ := ih hys
    have hmem : ∀ p ∈ x :: y :: ys, p.2 ≠ F.nan := by
      intro p hp
      rcases hp with _ | ⟨_, hp2⟩
      · exact hx
      · exact hl p hp2
    simp only [insertDescF, hqx, hqy, F.cmpOpt]
    cases hc : compare qy qx with
    | lt => exact ⟨x :: y :: ys, rfl, hmem⟩
    | eq => exact ⟨x :: y :: ys, rfl, hmem⟩
    | gt =>
      refine ⟨y :: r, by rw [hr], ?_⟩
      intro p hp
      rcases hp with _ | ⟨_, hp2⟩
      · exact hy
      · exact hrn p hp2

/-- Sorting a list of non-NaN entries never hits the `unwrap`, and the
output again holds only non-NaN entries. -/
theorem sortDescF_total (l : List (String × F)) (hl : ∀ p ∈ l, p.2 ≠ F.nan) :
    ∃ r, sortDescF l = some r ∧ ∀ p ∈ r, p.2 ≠ F.nan := by
  induction l with
  | nil => exact ⟨[], rfl, by simp⟩
  | cons x xs ih =>
    have hx : x.2 ≠ F.nan := hl x (by simp)
    obtain ⟨r, hr, hrn⟩ := ih (fun p hp => hl p (by simp [hp]))
    obtain ⟨r2, hr2, hrn2⟩ := insertDescF_total x r hx hrn
    refine ⟨r2, ?_, hrn2⟩
    simp only [sortDescF]
    rw [hr]
    exact hr2

/-- Items whose grouped gross sums include a NaN. -/
def c10Items : List (String × F) := [("gpt-4", F.nan), ("claude", F.num 50)]

/-- C10: the model sort never panics when every per-model summed gross
quantity is a comparable (non-NaN) number, so `calculate_stats` is total
on such snapshots; but for the snapshot `c10Items` holding a NaN gross
quantity, the comparator's `unwrap` panics under every admissible hash-map
iteration order. -/
theorem model_sort_nan_unwrap :
    (∀ groups : List (String × F), (∀ p ∈ groups, p.2 ≠ F.nan) →
      (sortDescF groups).isSome = true)
    ∧ ∀ ord : List (String × F), ord.Perm (groupGrossF c10Items) →
        sortDescF ord = none := by
  constructor
  · intro groups hg
    obtain ⟨r, hr, _⟩ := sortDescF_total groups hg
    simp [hr]
  · intro ord hperm
    have hg : groupGrossF c10Items = [("gpt-4", F.nan), ("claude", F.num 50)] := by
      simp [groupGrossF, addItemF, c10Items]
    rw [hg] at hperm
    rcases perm_pair_cases hperm with rfl | rfl
    · rfl
    · rfl

/-- Witness for `model_sort_nan_unwrap`: two comparable groups sort
without panic; the NaN snapshot's groups make the sort panic. -/
theorem model_sort_nan_unwrap_witness :
    (sortDescF [("claude", F.num 50), ("gpt-4", F.num 125)]).isSome = true
    ∧ sortDescF [("gpt-4", F.nan), ("claude", F.num 50)] = none :=
  ⟨model_sort_nan_unwrap.1 [("claude", F.num 50), ("gpt-4", F.num 125)] (by decide),
   model_sort_nan_unwrap.2 [("gpt-4", F.nan), ("claude", F.num 50)]
     (by
       have hg : groupGrossF c10Items = [("gpt-4", F.nan), ("claude", F.num 50)] := by
         simp [groupGrossF, addItemF, c10Items]
       rw [hg])⟩
